import Mathlib

/-!
Verification of `exifer.py`, a PyQt batch timestamp editor.

The Python program is shallowly embedded:
  * timestamps are POSIX seconds, modelled as `Int`;
  * the filesystem is an explicit state (`FS`) holding, per path, the
    filesystem modify/access time set by `os.utime` and the embedded
    metadata timestamp written by ExifTool;
  * external effects (`os.utime` failures, the platform creation-time
    commands, the ExifTool subprocess, `datetime.strptime`, `int(...)`,
    `os.path.isfile`) are environment oracles gathered in `Oracle`;
  * Python exceptions with messages become `Option String` results carried
    next to the (possibly partially mutated) state;
  * GUI dialogs (`QMessageBox.warning/information/critical`) become a
    `Dialog` list output;
  * the GUI file list widget is a list of (item id, displayed text) pairs
    next to the internal `files` path list.
String helpers (`os.path.basename`, `str.lower`, Python string comparison)
are modelled over `List Char` so that everything evaluates by `decide`.
-/

/-- Model of posix `os.path.basename` on the character list of a path:
the characters after the last `/`. -/
def basenameChars (l : List Char) : List Char :=
  (l.reverse.takeWhile (fun c => c ≠ '/')).reverse

/-- Model of posix `os.path.basename`. -/
def basename (p : String) : String := String.mk (basenameChars p.data)

/-- Model of `str.lower` on one character (ASCII, which is what filenames in
the sort key use it for). -/
def lowerChar (c : Char) : Char :=
  if 'A' ≤ c ∧ c ≤ 'Z' then Char.ofNat (c.toNat + 32) else c

/-- The sort key of `working_files.sort(key=lambda x: os.path.basename(x).lower())`:
the lowercased basename, as a character list. -/
def sortKey (p : String) : List Char := (basenameChars p.data).map lowerChar

/-- Code-point lexicographic `≤` on character lists, i.e. Python string
comparison. -/
def lexLe : List Char → List Char → Bool
  | [], _ => true
  | _ :: _, [] => false
  | a :: as, b :: bs => if a < b then true else if b < a then false else lexLe as bs

/-- The comparison used by the sequential-mode sort: case-insensitive
basename order. -/
def fileLe (a b : String) : Prop := lexLe (sortKey a) (sortKey b) = true

instance : DecidableRel fileLe := fun _ _ => inferInstanceAs (Decidable (_ = true))

/-- `working_files.sort(key=...)` from `process_files`: Python `list.sort` is a
stable sort by the key, modelled by insertion sort with `fileLe`. -/
def sortFiles (l : List String) : List String := List.insertionSort fileLe l

/-- Update an association list at a key (insert if absent). -/
def setAssoc (l : List (String × Int)) (k : String) (v : Int) : List (String × Int) :=
  match l with
  | [] => [(k, v)]
  | (k', v') :: rest => if k' == k then (k, v) :: rest else (k', v') :: setAssoc rest k v

/-- The filesystem state: per path, the modify/access time set by `os.utime`
and the embedded metadata timestamp written by ExifTool. -/
structure FS where
  times : List (String × Int)
  meta : List (String × Int)
deriving DecidableEq

def setTime (fs : FS) (p : String) (t : Int) : FS :=
  { fs with times := setAssoc fs.times p t }

def setMeta (fs : FS) (p : String) (t : Int) : FS :=
  { fs with meta := setAssoc fs.meta p t }

inductive Platform where
  | windows
  | darwin
  | other
deriving DecidableEq

/-- Environment oracles for the external effects the program performs.
`utimeErr p`/`creationToolErr p` give the exception message when `os.utime`
resp. the platform creation-time command (powershell / SetFile, run with
`check=True`) fails on `p`; `exiftoolRun p` is the outcome of the ExifTool
subprocess on `p` (`.error` carries its stderr on a non-zero exit);
`strptime s` is `datetime.strptime(s, "%Y-%m-%d %H:%M:%S")` (`.error` carries
the `ValueError` text); `intParse s` is `int(s)`; `isFile` is
`os.path.isfile`. -/
structure Oracle where
  platform : Platform
  utimeErr : String → Option String
  creationToolErr : String → Option String
  exiftoolRun : String → Except String Unit
  strptime : String → Except String Int
  intParse : String → Option Int
  isFile : String → Bool

inductive Dialog where
  | warning (title msg : String)
  | info (title msg : String)
  | critical (title msg : String)
deriving DecidableEq

/-- `modify_file_dates`: set the filesystem times with `os.utime`, then on
Windows/macOS run the platform creation-time command; any exception is
re-raised as `Error modifying file dates: ...`.  Returns the (possibly
partially mutated) state and the raised message, if any.  Creation time is
modelled only through the success/failure of the external command. -/
def modify_file_dates (o : Oracle) (fs : FS) (path : String) (ts : Int) :
    FS × Option String :=
  match o.utimeErr path with
  | some e => (fs, some ("Error modifying file dates: " ++ e))
  | none =>
    let fs1 := setTime fs path ts
    match o.platform with
    | .windows =>
      match o.creationToolErr path with
      | some e => (fs1, some ("Error modifying file dates: " ++ e))
      | none => (fs1, none)
    | .darwin =>
      match o.creationToolErr path with
      | some e => (fs1, some ("Error modifying file dates: " ++ e))
      | none => (fs1, none)
    | .other => (fs1, none)

/-- `modify_metadata`: raise if ExifTool was not found; otherwise run it with
`check=True` (a non-zero exit raises `ExifTool error: {stderr}` and nothing is
mutated), and on success write the embedded metadata timestamp and then also
update the filesystem timestamps via `modify_file_dates`, whose exception is
re-raised as `Error: ...`. -/
def modify_metadata (o : Oracle) (exiftool_path : Option String) (fs : FS)
    (path : String) (ts : Int) : FS × Option String :=
  match exiftool_path with
  | none => (fs, some "ExifTool not found. Please install ExifTool first.")
  | some _ =>
    match o.exiftoolRun path with
    | .error stderr => (fs, some ("ExifTool error: " ++ stderr))
    | .ok _ =>
      let fs1 := setMeta fs path ts
      let r := modify_file_dates o fs1 path ts
      match r.2 with
      | some e => (r.1, some ("Error: " ++ e))
      | none => (r.1, none)

/-- The GUI state the claims are about: the internal path list `self.files`
and the `QListWidget` contents, each display entry being an (item id,
displayed text) pair so list items keep their identity across removals. -/
structure GuiState where
  files : List String
  display : List (Nat × String)
  nextId : Nat
deriving DecidableEq

/-- The body of the loop in `select_files`: append the path and its basename
display item unless the path is already present. -/
def addFile (st : GuiState) (p : String) : GuiState :=
  if st.files.contains p then st
  else { files := st.files ++ [p],
         display := st.display ++ [(st.nextId, basename p)],
         nextId := st.nextId + 1 }

/-- `select_files`, applied to the paths the dialog returned. -/
def select_files (st : GuiState) (chosen : List String) : GuiState :=
  chosen.foldl addFile st

/-- The body of the loop in `dropEvent`: like `addFile` but also requires
`os.path.isfile`. -/
def dropAdd (o : Oracle) (st : GuiState) (p : String) : GuiState :=
  if o.isFile p && !st.files.contains p then
    { files := st.files ++ [p],
      display := st.display ++ [(st.nextId, basename p)],
      nextId := st.nextId + 1 }
  else st

/-- `dropEvent`, applied to the local file paths of the dropped URLs. -/
def dropEvent (o : Oracle) (st : GuiState) (urls : List String) : GuiState :=
  urls.foldl (dropAdd o) st

/-- One iteration of the `remove_selected` loop: look up the item's current
row (`self.file_list.row(item)`) and remove that row from both the widget
(`takeItem`) and `self.files` (`del`). -/
def removeOne (s : GuiState) (id : Nat) : GuiState :=
  match s.display.findIdx? (fun e => e.1 == id) with
  | some r => { s with display := s.display.eraseIdx r,
                       files := s.files.eraseIdx r }
  | none => s

/-- `remove_selected`, applied to the ids of the selected items. -/
def remove_selected (st : GuiState) (sel : List Nat) : GuiState :=
  sel.foldl removeOne st

/-- `clear_files`: clear both the widget and `self.files`. -/
def clear_files (st : GuiState) : GuiState :=
  { st with files := [], display := [] }

/-- Model of posix `os.path.join` as used in `find_exiftool`. -/
def joinPath (d f : String) : String := d ++ "/" ++ f

/-- The ordered candidate list of `find_exiftool`: next to the script, on the
search path, common Unix/macOS locations, plus two Windows-only entries. -/
def possible_paths (script_dir : String) (isWindows : Bool) : List String :=
  [joinPath script_dir "exiftool",
   joinPath script_dir "exiftool.exe",
   "exiftool",
   "/usr/bin/exiftool",
   "/usr/local/bin/exiftool"] ++
  (if isWindows then [joinPath script_dir "exiftool(-k).exe", "exiftool.exe"] else [])

/-- `find_exiftool`: probe each candidate with `[path, '-ver']` and return the
first whose probe ran and exited 0; `probe p = none` models the
FileNotFoundError / generic-exception branches (`continue`), `some rc` a run
that returned exit status `rc`.  Returns `none` when no candidate succeeds. -/
def find_exiftool (probe : String → Option Int) (script_dir : String)
    (isWindows : Bool) : Option String :=
  (possible_paths script_dir isWindows).find? (fun p => probe p == some 0)

/-- Whether the Full Metadata Mode button is enabled after `init_ui`: it
starts enabled and is disabled exactly when `find_exiftool` returned nothing. -/
def full_mode_enabled (exiftool_path : Option String) : Bool :=
  exiftool_path.isSome

/-- The UI inputs `process_files` reads. -/
structure Config where
  dateText : String
  timeText : String
  sequential : Bool
  intervalText : String
  simpleMode : Bool
  exiftool_path : Option String

/-- The timestamp assigned to the file at loop index `i`:
`base + i*interval` seconds in sequential mode, `base` otherwise. -/
def fileTimestamp (seq : Bool) (base interval : Int) (i : Nat) : Int :=
  if seq then base + (i : Int) * interval else base

/-- One iteration of the `process_files` loop body: dispatch on the mode
buttons. -/
def processOne (o : Oracle) (cfg : Config) (fs : FS) (file : String) (ts : Int) :
    FS × Option String :=
  if cfg.simpleMode then modify_file_dates o fs file ts
  else modify_metadata o cfg.exiftool_path fs file ts

structure BatchOut where
  fs : FS
  processed : Nat
  errors : List String
  trace : List (String × Int)
deriving DecidableEq

/-- The `for i, file in enumerate(working_files)` loop: compute each file's
timestamp, run the per-file operation, count successes, and collect
`Error processing {basename}: {msg}` strings for the failures.  `trace`
records, in order, each attempted (file, timestamp) pair. -/
def runBatch (o : Oracle) (cfg : Config) (base interval : Int) :
    List String → Nat → FS → BatchOut
  | [], _, fs => { fs := fs, processed := 0, errors := [], trace := [] }
  | f :: rest, i, fs =>
    let ts := fileTimestamp cfg.sequential base interval i
    let r := processOne o cfg fs f ts
    let out := runBatch o cfg base interval rest (i + 1) r.1
    match r.2 with
    | none =>
      { out with processed := out.processed + 1, trace := (f, ts) :: out.trace }
    | some e =>
      { out with errors := ("Error processing " ++ basename f ++ ": " ++ e) :: out.errors,
                 trace := (f, ts) :: out.trace }

/-- Python `"\n".join`. -/
def joinLines : List String → String
  | [] => ""
  | [s] => s
  | s :: rest => s ++ "\n" ++ joinLines rest

/-- Everything observable about one `process_files` call. -/
structure RunResult where
  gui : GuiState
  fs : FS
  dialogs : List Dialog
  total : Nat
  processed : Nat
  errors : List String
  trace : List (String × Int)
deriving DecidableEq

/-- `process_files`: warn and return on an empty list; parse
`"{date} {time}"` (a `ValueError` is caught by the outer handler, which shows
one critical dialog and returns); in sequential mode sort a working copy by
case-insensitive basename and parse the interval, falling back to 60 with a
warning dialog on `ValueError`; run the batch; report success or partial
success; clear the file list. -/
def process_files (o : Oracle) (cfg : Config) (st : GuiState) (fs : FS) :
    RunResult :=
  if st.files.isEmpty then
    { gui := st, fs := fs,
      dialogs := [.warning "Warning" "No files to process."],
      total := 0, processed := 0, errors := [], trace := [] }
  else
    match o.strptime (cfg.dateText ++ " " ++ cfg.timeText) with
    | .error e =>
      { gui := st, fs := fs,
        dialogs := [.critical "Error" ("Invalid date/time format: " ++ e)],
        total := 0, processed := 0, errors := [], trace := [] }
    | .ok base =>
      let working := if cfg.sequential then sortFiles st.files else st.files
      let intervalRes :=
        if cfg.sequential then
          match o.intParse cfg.intervalText with
          | some n => (n, ([] : List Dialog))
          | none => (60, [.warning "Warning" "Invalid interval value. Using 60 seconds."])
        else (60, ([] : List Dialog))
      let out := runBatch o cfg base intervalRes.1 working 0 fs
      let report :=
        if out.errors.isEmpty then
          Dialog.info "Success"
            ("Successfully processed all " ++ toString working.length ++ " files!")
        else
          Dialog.warning "Partial Success"
            ("Processed " ++ toString out.processed ++ " out of "
              ++ toString working.length ++ " files.\n\nErrors:\n"
              ++ joinLines out.errors)
      { gui := clear_files st, fs := out.fs,
        dialogs := intervalRes.2 ++ [report],
        total := working.length, processed := out.processed,
        errors := out.errors, trace := out.trace }

/-- The exception message `modify_file_dates` raises on a path, read off the
oracles; the error does not depend on the filesystem state or timestamp. -/
def fdErr (o : Oracle) (p : String) : Option String :=
  match o.utimeErr p with
  | some e => some ("Error modifying file dates: " ++ e)
  | none =>
    match o.platform with
    | .windows => (o.creationToolErr p).map (fun e => "Error modifying file dates: " ++ e)
    | .darwin => (o.creationToolErr p).map (fun e => "Error modifying file dates: " ++ e)
    | .other => none

/-- The exception message `modify_metadata` raises on a path. -/
def metaErr (o : Oracle) (exiftool_path : Option String) (p : String) : Option String :=
  match exiftool_path with
  | none => some "ExifTool not found. Please install ExifTool first."
  | some _ =>
    match o.exiftoolRun p with
    | .error stderr => some ("ExifTool error: " ++ stderr)
    | .ok _ => (fdErr o p).map (fun e => "Error: " ++ e)

/-- The exception message the `process_files` loop body raises on a path. -/
def fileErr (o : Oracle) (cfg : Config) (p : String) : Option String :=
  if cfg.simpleMode then fdErr o p else metaErr o cfg.exiftool_path p

/-- The (file, timestamp) pairs the batch loop assigns, starting at loop
index `i`. -/
def assignedTimes (seq : Bool) (base interval : Int) :
    List String → Nat → List (String × Int)
  | [], _ => []
  | f :: rest, i =>
    (f, fileTimestamp seq base interval i) :: assignedTimes seq base interval rest (i + 1)

/-- The list-mutating GUI operations. -/
inductive ListOp where
  | select (chosen : List String)
  | drop (urls : List String)
  | removeSel (sel : List Nat)
  | clear

def applyOp (o : Oracle) : ListOp → GuiState → GuiState
  | .select cs, st => select_files st cs
  | .drop us, st => dropEvent o st us
  | .removeSel sel, st => remove_selected st sel
  | .clear, st => clear_files st

/-- The display/internal-list correspondence: the displayed texts are, in
order, the basenames of the internal paths. -/
def listsMatch (st : GuiState) : Prop :=
  st.display.map Prod.snd = st.files.map basename

/-- A concrete environment for evaluating the model: `os.utime` and ExifTool
fail on `bad.jpg` and succeed elsewhere, `strptime` accepts exactly
`2024-01-01 00:00:00`, and `int()` accepts exactly `60`. -/
def sampleOracle : Oracle where
  platform := .other
  utimeErr := fun p => if p = "bad.jpg" then some "utime failed" else none
  creationToolErr := fun _ => none
  exiftoolRun := fun p => if p = "bad.jpg" then .error "tool stderr" else .ok ()
  strptime := fun s =>
    if s = "2024-01-01 00:00:00" then .ok 1704067200 else .error "bad date"
  intParse := fun s => if s = "60" then some 60 else none
  isFile := fun _ => true

def sampleCfgSeq : Config := ⟨"2024-01-01", "00:00:00", true, "60", true, none⟩

def sampleCfgSeqBadIv : Config := ⟨"2024-01-01", "00:00:00", true, "abc", true, none⟩

def sampleCfgNonseq : Config := ⟨"2024-01-01", "00:00:00", false, "60", true, none⟩

def sampleCfgBadDate : Config := ⟨"2024-13-01", "00:00:00", false, "60", true, none⟩

def sampleSt : GuiState := ⟨["b/B.jpg", "a.jpg"], [(0, "B.jpg"), (1, "a.jpg")], 2⟩

def sampleStBad : GuiState := ⟨["bad.jpg", "a.jpg"], [(0, "bad.jpg"), (1, "a.jpg")], 2⟩

def sampleFS : FS := ⟨[], []⟩

/-- A concrete `-ver` probe where only `/usr/bin/exiftool` exits 0. -/
def sampleProbe : String → Option Int :=
  fun p => if p = "/usr/bin/exiftool" then some 0 else none

/-! ## Helper lemmas -/

theorem isEmpty_false_of_ne_nil {α : Type} {l : List α} (h : l ≠ []) :
    l.isEmpty = false := by
  cases l with
  | nil => exact absurd rfl h
  | cons a t => rfl

theorem lexLe_total : ∀ a b : List Char, lexLe a b = true ∨ lexLe b a = true
  | [], _ => Or.inl rfl
  | _ :: _, [] => Or.inr rfl
  | a :: as, b :: bs => by
    by_cases h1 : a < b
    · left; simp [lexLe, h1]
    · by_cases h2 : b < a
      · right; simp [lexLe, h2]
      · rcases lexLe_total as bs with h | h
        · left; simp [lexLe, h1, h2, h]
        · right; simp [lexLe, h1, h2, h]

theorem lexLe_trans :
    ∀ a b c : List Char, lexLe a b = true → lexLe b c = true → lexLe a c = true
  | [], _, _, _, _ => rfl
  | _ :: _, [], _, hab, _ => by simp [lexLe] at hab
  | _ :: _, _ :: _, [], _, hbc => by simp [lexLe] at hbc
  | x :: xs, y :: ys, z :: zs, hab, hbc => by
    by_cases hxy : x < y
    · by_cases hyz : y < z
      · simp [lexLe, lt_trans hxy hyz]
      · by_cases hzy : z < y
        · simp [lexLe, hzy] at hbc
          exact absurd hbc hyz
        · have hyz' : y = z := le_antisymm (le_of_not_lt hzy) (le_of_not_lt hyz)
          simp [lexLe, hyz' ▸ hxy]
    · by_cases hyx : y < x
      · simp [lexLe, hxy, hyx] at hab
      · have hxy' : x = y := le_antisymm (le_of_not_lt hyx) (le_of_not_lt hxy)
        simp only [lexLe, if_neg hxy, if_neg hyx] at hab
        by_cases hyz : y < z
        · simp [lexLe, hxy' ▸ hyz]
        · by_cases hzy : z < y
          · simp [lexLe, hzy] at hbc
            exact absurd hbc hyz
          · have hyz' : y = z := le_antisymm (le_of_not_lt hzy) (le_of_not_lt hyz)
            simp only [lexLe, if_neg hyz, if_neg hzy] at hbc
            have hxz : ¬ x < z := hyz' ▸ hxy' ▸ hxy
            have hzx : ¬ z < x := hyz' ▸ hxy' ▸ hyx
            simp only [lexLe, if_neg hxz, if_neg hzx]
            exact lexLe_trans xs ys zs hab hbc

theorem fileLe_total (a b : String) : fileLe a b ∨ fileLe b a :=
  lexLe_total (sortKey a) (sortKey b)

theorem fileLe_trans {a b c : String} (h : fileLe a b) (h' : fileLe b c) :
    fileLe a c :=
  lexLe_trans (sortKey a) (sortKey b) (sortKey c) h h'

theorem sortFiles_sorted (l : List String) : List.Sorted fileLe (sortFiles l) :=
  @List.sorted_insertionSort String fileLe _ ⟨fileLe_total⟩
    ⟨fun _ _ _ => fileLe_trans⟩ l

theorem sortFiles_perm (l : List String) : (sortFiles l).Perm l :=
  List.perm_insertionSort fileLe l

theorem modify_file_dates_snd (o : Oracle) (fs : FS) (p : String) (ts : Int) :
    (modify_file_dates o fs p ts).2 = fdErr o p := by
  unfold modify_file_dates fdErr
  cases o.utimeErr p with
  | some e => rfl
  | none =>
    cases o.platform <;> cases o.creationToolErr p <;> rfl

theorem modify_metadata_snd (o : Oracle) (xp : Option String) (fs : FS)
    (p : String) (ts : Int) :
    (modify_metadata o xp fs p ts).2 = metaErr o xp p := by
  unfold modify_metadata metaErr
  cases xp with
  | none => rfl
  | some q =>
    cases o.exiftoolRun p with
    | error e => rfl
    | ok u =>
      simp only []
      rw [modify_file_dates_snd]
      cases fdErr o p <;> rfl

theorem processOne_snd (o : Oracle) (cfg : Config) (fs : FS) (f : String)
    (ts : Int) : (processOne o cfg fs f ts).2 = fileErr o cfg f := by
  unfold processOne fileErr
  by_cases h : cfg.simpleMode <;>
    simp [h, modify_file_dates_snd, modify_metadata_snd]

theorem runBatch_trace (o : Oracle) (cfg : Config) (base interval : Int)
    (l : List String) : ∀ (i : Nat) (fs : FS),
    (runBatch o cfg base interval l i fs).trace =
      assignedTimes cfg.sequential base interval l i := by
  induction l with
  | nil => intro i fs; rfl
  | cons f rest ih =>
    intro i fs
    simp only [runBatch, assignedTimes]
    cases h : (processOne o cfg fs f (fileTimestamp cfg.sequential base interval i)).2 <;>
      simp [h, ih]

theorem runBatch_errors (o : Oracle) (cfg : Config) (base interval : Int)
    (l : List String) : ∀ (i : Nat) (fs : FS),
    (runBatch o cfg base interval l i fs).errors =
      l.filterMap (fun f => (fileErr o cfg f).map
        (fun e => "Error processing " ++ basename f ++ ": " ++ e)) := by
  induction l with
  | nil => intro i fs; rfl
  | cons f rest ih =>
    intro i fs
    have hps := processOne_snd o cfg fs f (fileTimestamp cfg.sequential base interval i)
    simp only [runBatch]
    cases h : (processOne o cfg fs f (fileTimestamp cfg.sequential base interval i)).2 with
    | none =>
      have hf : fileErr o cfg f = none := by rw [← hps, h]
      simp [h, ih, List.filterMap_cons, hf]
    | some e =>
      have hf : fileErr o cfg f = some e := by rw [← hps, h]
      simp [h, ih, List.filterMap_cons, hf]

theorem assignedTimes_getElem? (seq : Bool) (base interval : Int) :
    ∀ (l : List String) (i k : Nat) (hk : k < l.length),
      (assignedTimes seq base interval l i)[k]? =
        some (l.get ⟨k, hk⟩, fileTimestamp seq base interval (i + k))
  | [], _, k, hk => absurd hk (by simp)
  | f :: rest, i, 0, hk => by simp [assignedTimes]
  | f :: rest, i, k + 1, hk => by
    have hk' : k < rest.length := by simpa using hk
    have harith : i + 1 + k = i + (k + 1) := by omega
    simp only [assignedTimes, List.getElem?_cons_succ, List.get]
    rw [assignedTimes_getElem? seq base interval rest (i + 1) k hk', harith]

theorem assignedTimes_map_fst (seq : Bool) (base interval : Int) :
    ∀ (l : List String) (i : Nat),
      (assignedTimes seq base interval l i).map Prod.fst = l
  | [], _ => rfl
  | f :: rest, i => by
    simp [assignedTimes, assignedTimes_map_fst seq base interval rest (i + 1)]

theorem assignedTimes_nonseq (base interval : Int) :
    ∀ (l : List String) (i : Nat),
      assignedTimes false base interval l i = l.map (fun f => (f, base))
  | [], _ => rfl
  | f :: rest, i => by
    simp [assignedTimes, fileTimestamp,
      assignedTimes_nonseq base interval rest (i + 1)]

theorem map_eraseIdx {α β : Type} (f : α → β) :
    ∀ (l : List α) (i : Nat), (l.eraseIdx i).map f = (l.map f).eraseIdx i
  | [], _ => by simp
  | a :: t, 0 => by simp
  | a :: t, i + 1 => by simp [List.eraseIdx, map_eraseIdx f t i]

theorem listsMatch_addFile (st : GuiState) (p : String) (h : listsMatch st) :
    listsMatch (addFile st p) := by
  unfold addFile
  unfold listsMatch at *
  by_cases hc : p ∈ st.files <;> simp [hc, h]

theorem listsMatch_dropAdd (o : Oracle) (st : GuiState) (p : String)
    (h : listsMatch st) : listsMatch (dropAdd o st p) := by
  unfold dropAdd
  unfold listsMatch at *
  by_cases h1 : o.isFile p <;> by_cases h2 : p ∈ st.files <;> simp [h1, h2, h]

theorem listsMatch_removeOne (st : GuiState) (id : Nat) (h : listsMatch st) :
    listsMatch (removeOne st id) := by
  unfold removeOne
  cases hf : st.display.findIdx? (fun e => e.1 == id) with
  | none => exact h
  | some r =>
    unfold listsMatch at *
    simp only
    rw [map_eraseIdx, map_eraseIdx, h]

theorem listsMatch_select_files (st : GuiState) (cs : List String)
    (h : listsMatch st) : listsMatch (select_files st cs) := by
  induction cs generalizing st with
  | nil => exact h
  | cons c rest ih =>
    simp only [select_files, List.foldl_cons]
    exact ih (addFile st c) (listsMatch_addFile st c h)

theorem listsMatch_dropEvent (o : Oracle) (st : GuiState) (us : List String)
    (h : listsMatch st) : listsMatch (dropEvent o st us) := by
  induction us generalizing st with
  | nil => exact h
  | cons u rest ih =>
    simp only [dropEvent, List.foldl_cons]
    exact ih (dropAdd o st u) (listsMatch_dropAdd o st u h)

theorem listsMatch_remove_selected (st : GuiState) (sel : List Nat)
    (h : listsMatch st) : listsMatch (remove_selected st sel) := by
  induction sel generalizing st with
  | nil => exact h
  | cons s rest ih =>
    simp only [remove_selected, List.foldl_cons]
    exact ih (removeOne st s) (listsMatch_removeOne st s h)

theorem listsMatch_applyOp (o : Oracle) (op : ListOp) (st : GuiState)
    (h : listsMatch st) : listsMatch (applyOp o op st) := by
  cases op with
  | select cs => exact listsMatch_select_files st cs h
  | drop us => exact listsMatch_dropEvent o st us h
  | removeSel sel => exact listsMatch_remove_selected st sel h
  | clear => simp [applyOp, clear_files, listsMatch]

/-! ## Claim theorems -/

/-- C2: if the concatenated date and time inputs do not parse, `process_files`
returns having shown exactly one critical error dialog, with the filesystem
state (both filesystem and embedded timestamps of every file) unchanged, no
per-file operation attempted, and the GUI state untouched. -/
theorem invalid_datetime_aborts (o : Oracle) (cfg : Config) (st : GuiState)
    (fs : FS) (e : String) (hne : st.files ≠ [])
    (hparse : o.strptime (cfg.dateText ++ " " ++ cfg.timeText) = Except.error e) :
    process_files o cfg st fs =
      { gui := st, fs := fs,
        dialogs := [Dialog.critical "Error" ("Invalid date/time format: " ++ e)],
        total := 0, processed := 0, errors := [], trace := [] } := by
  simp [process_files, isEmpty_false_of_ne_nil hne, hparse]

/-- C4: in non-sequential mode, every file in the batch is assigned exactly
the parsed base timestamp, in the original list order. -/
theorem nonseq_all_base (o : Oracle) (cfg : Config) (st : GuiState) (fs : FS)
    (base : Int) (hseq : cfg.sequential = false) (hne : st.files ≠ [])
    (hparse : o.strptime (cfg.dateText ++ " " ++ cfg.timeText) = Except.ok base) :
    (process_files o cfg st fs).trace = st.files.map (fun f => (f, base)) := by
  simp [process_files, isEmpty_false_of_ne_nil hne, hparse, hseq,
    runBatch_trace, assignedTimes_nonseq]

/-- C5: any run that reaches the reporting stage (the inputs parsed; success
or partial failure alike) leaves both the internal path list and the
displayed list empty. -/
theorem run_clears_list (o : Oracle) (cfg : Config) (st : GuiState) (fs : FS)
    (base : Int) (hne : st.files ≠ [])
    (hparse : o.strptime (cfg.dateText ++ " " ++ cfg.timeText) = Except.ok base) :
    (process_files o cfg st fs).gui.files = [] ∧
    (process_files o cfg st fs).gui.display = [] := by
  simp [process_files, isEmpty_false_of_ne_nil hne, hparse, clear_files]

/-- C1: in sequential mode with parsed base `base` and parsed interval
`interval`, the working copy sorted case-insensitively by basename is what
determines ranks: it is `fileLe`-sorted, a permutation of the insertion-order
list, and the file ranked `k` in it is assigned timestamp
`base + k*interval`. -/
theorem seq_rank_timestamps (o : Oracle) (cfg : Config) (st : GuiState)
    (fs : FS) (base interval : Int) (hseq : cfg.sequential = true)
    (hne : st.files ≠ [])
    (hparse : o.strptime (cfg.dateText ++ " " ++ cfg.timeText) = Except.ok base)
    (hint : o.intParse cfg.intervalText = some interval) :
    List.Sorted fileLe (sortFiles st.files) ∧
    (sortFiles st.files).Perm st.files ∧
    ∀ k (hk : k < (sortFiles st.files).length),
      (process_files o cfg st fs).trace[k]? =
        some ((sortFiles st.files).get ⟨k, hk⟩, base + (k : Int) * interval) := by
  refine ⟨sortFiles_sorted _, sortFiles_perm _, ?_⟩
  intro k hk
  have ht : (process_files o cfg st fs).trace =
      assignedTimes true base interval (sortFiles st.files) 0 := by
    simp [process_files, isEmpty_false_of_ne_nil hne, hparse, hseq, hint,
      runBatch_trace]
  rw [ht, assignedTimes_getElem? true base interval _ 0 k hk]
  simp [fileTimestamp]

/-- C3: every file of the working list is attempted, in order, regardless of
earlier per-file failures; each failure is recorded as
`Error processing {basename}: {message}`; and when there were failures the
run ends with one Partial Success dialog reporting all of them joined
together. -/
theorem per_file_failures_collected (o : Oracle) (cfg : Config) (st : GuiState)
    (fs : FS) (base : Int) (hne : st.files ≠ [])
    (hparse : o.strptime (cfg.dateText ++ " " ++ cfg.timeText) = Except.ok base) :
    (process_files o cfg st fs).trace.map Prod.fst =
      (if cfg.sequential then sortFiles st.files else st.files) ∧
    (process_files o cfg st fs).errors =
      (if cfg.sequential then sortFiles st.files else st.files).filterMap
        (fun f => (fileErr o cfg f).map
          (fun e => "Error processing " ++ basename f ++ ": " ++ e)) ∧
    ((process_files o cfg st fs).errors ≠ [] →
      (process_files o cfg st fs).dialogs.getLast? =
        some (Dialog.warning "Partial Success"
          ("Processed " ++ toString (process_files o cfg st fs).processed
            ++ " out of " ++ toString (process_files o cfg st fs).total
            ++ " files.\n\nErrors:\n"
            ++ joinLines (process_files o cfg st fs).errors))) := by
  refine ⟨?_, ?_, ?_⟩
  · simp [process_files, isEmpty_false_of_ne_nil hne, hparse, runBatch_trace,
      assignedTimes_map_fst]
  · simp [process_files, isEmpty_false_of_ne_nil hne, hparse, runBatch_errors]
  · intro hne'
    simp only [process_files, isEmpty_false_of_ne_nil hne, hparse] at hne' ⊢
    set working := if cfg.sequential then sortFiles st.files else st.files with hw
    set iv :=
      (if cfg.sequential then
        match o.intParse cfg.intervalText with
        | some n => (n, ([] : List Dialog))
        | none => (60, [Dialog.warning "Warning"
            "Invalid interval value. Using 60 seconds."])
      else (60, ([] : List Dialog))) with hiv
    set out := runBatch o cfg base iv.1 working 0 fs with hout
    have hE : out.errors.isEmpty = false :=
      isEmpty_false_of_ne_nil (by simpa using hne')
    simp [hE, List.getLast?_append]

/-- C6: adding an already-present path, whether through the file dialog loop
(`addFile`) or the drag-and-drop loop (`dropAdd`), is a no-op; adding the
same path twice leaves the list equal to adding it once; and a
duplicate-free list stays duplicate-free under either add. -/
theorem add_is_dedup (o : Oracle) (st : GuiState) (p : String)
    (hnd : st.files.Nodup) :
    (p ∈ st.files → addFile st p = st) ∧
    addFile (addFile st p) p = addFile st p ∧
    (addFile st p).files.Nodup ∧
    select_files st [p, p] = select_files st [p] ∧
    (p ∈ st.files → dropAdd o st p = st) ∧
    dropAdd o (dropAdd o st p) p = dropAdd o st p ∧
    (dropAdd o st p).files.Nodup := by
  have htwice : addFile (addFile st p) p = addFile st p := by
    by_cases hc : p ∈ st.files
    · simp [addFile, hc]
    · simp [addFile, hc]
  refine ⟨fun hc => by simp [addFile, hc], htwice, ?_, ?_, ?_, ?_, ?_⟩
  · by_cases hc : p ∈ st.files
    · simpa [addFile, hc] using hnd
    · simp [addFile, hc, List.nodup_append, hnd]
  · simp [select_files, htwice]
  · intro hc; simp [dropAdd, hc]
  · by_cases hi : o.isFile p
    · by_cases hc : p ∈ st.files
      · simp [dropAdd, hi, hc]
      · simp [dropAdd, hi, hc]
    · simp [dropAdd, hi]
  · by_cases hi : o.isFile p
    · by_cases hc : p ∈ st.files
      · simpa [dropAdd, hi, hc] using hnd
      · simp [dropAdd, hi, hc, List.nodup_append, hnd]
    · simpa [dropAdd, hi] using hnd

/-- C7 counterexample: the fallback is not silent.  On a concrete sequential
run whose interval text does not parse, the run emits a warning dialog
("Invalid interval value. Using 60 seconds.") before the final report, so the
claim that the fallback happens silently is false. -/
theorem interval_fallback_not_silent :
    (process_files sampleOracle sampleCfgSeqBadIv sampleSt sampleFS).dialogs =
      [Dialog.warning "Warning" "Invalid interval value. Using 60 seconds.",
       Dialog.info "Success" "Successfully processed all 2 files!"] := by
  decide

/-- C7 (amended): in sequential mode, if the interval text does not parse as
an integer, the run shows a warning dialog, falls back to a 60-second
interval, and proceeds with the batch rather than aborting: every working
file is still assigned `base + k*60`. -/
theorem invalid_interval_defaults_with_warning (o : Oracle) (cfg : Config)
    (st : GuiState) (fs : FS) (base : Int) (hseq : cfg.sequential = true)
    (hne : st.files ≠ [])
    (hparse : o.strptime (cfg.dateText ++ " " ++ cfg.timeText) = Except.ok base)
    (hint : o.intParse cfg.intervalText = none) :
    (process_files o cfg st fs).dialogs.head? =
      some (Dialog.warning "Warning" "Invalid interval value. Using 60 seconds.") ∧
    (process_files o cfg st fs).trace =
      assignedTimes true base 60 (sortFiles st.files) 0 ∧
    (process_files o cfg st fs).total = (sortFiles st.files).length := by
  refine ⟨?_, ?_, ?_⟩ <;>
    simp [process_files, isEmpty_false_of_ne_nil hne, hparse, hseq, hint,
      runBatch_trace]

theorem find?_first {α : Type} (p : α → Bool) :
    ∀ (l : List α) (a : α), l.find? p = some a →
      ∃ i, ∃ (hi : i < l.length), l.get ⟨i, hi⟩ = a ∧ p a = true ∧
        ∀ j (hj : j < i), p (l.get ⟨j, by omega⟩) = false
  | [], a, h => by simp [List.find?] at h
  | x :: xs, a, h => by
    cases hpx : p x with
    | true =>
      rw [List.find?_cons_of_pos _ hpx] at h
      refine ⟨0, by simp, ?_, ?_, ?_⟩
      · simpa using Option.some_injective _ h
      · have := Option.some_injective _ h; subst this; exact hpx
      · intro j hj; omega
    | false =>
      rw [List.find?_cons_of_neg _ (by simp [hpx])] at h
      obtain ⟨i, hi, hget, hpa, hfirst⟩ := find?_first p xs a h
      refine ⟨i + 1, by simpa using Nat.succ_lt_succ hi, by simpa using hget,
        hpa, ?_⟩
      intro j hj
      cases j with
      | zero => simpa using hpx
      | succ j' => simpa using hfirst j' (by omega)

/-- C8: `find_exiftool` probes the fixed ordered candidate list and returns
the first candidate whose `-ver` probe exits 0 (every earlier candidate's
probe failed); it returns `none` exactly when no candidate's probe exits 0,
in which case the Full Metadata Mode button is disabled and `modify_metadata`
fails with a descriptive error without touching the file. -/
theorem exiftool_discovery (probe : String → Option Int) (dir : String)
    (win : Bool) (o : Oracle) (fs : FS) (path : String) (ts : Int) :
    (∀ res, find_exiftool probe dir win = some res →
      ∃ i, ∃ (hi : i < (possible_paths dir win).length),
        (possible_paths dir win).get ⟨i, hi⟩ = res ∧ probe res = some 0 ∧
        ∀ j (hj : j < i), probe ((possible_paths dir win).get ⟨j, by omega⟩) ≠ some 0) ∧
    (find_exiftool probe dir win = none ↔
      ∀ c ∈ possible_paths dir win, probe c ≠ some 0) ∧
    full_mode_enabled none = false ∧
    modify_metadata o none fs path ts =
      (fs, some "ExifTool not found. Please install ExifTool first.") := by
  refine ⟨?_, ?_, rfl, rfl⟩
  · intro res h
    obtain ⟨i, hi, hget, hpa, hfirst⟩ :=
      find?_first (fun q => probe q == some 0) (possible_paths dir win) res h
    refine ⟨i, hi, hget, by simpa using hpa, ?_⟩
    intro j hj
    simpa using hfirst j hj
  · unfold find_exiftool
    rw [List.find?_eq_none]
    constructor
    · intro h c hc
      simpa using h c hc
    · intro h c hc
      simpa using h c hc

/-- C9: in full metadata mode with a located tool, a non-zero ExifTool exit
on a file surfaces as an error containing the tool's stderr and leaves the
filesystem state untouched (the filesystem-timestamp step is not performed);
when the tool succeeds, the embedded timestamp is written and then the
filesystem timestamps are set through the simple-mode path
(`modify_file_dates`), whose own failure is re-wrapped as `Error: ...`. -/
theorem full_mode_tool_failure (o : Oracle) (fs : FS) (path xp : String)
    (ts : Int) :
    (∀ stderr, o.exiftoolRun path = Except.error stderr →
      modify_metadata o (some xp) fs path ts =
        (fs, some ("ExifTool error: " ++ stderr))) ∧
    (o.exiftoolRun path = Except.ok () →
      modify_metadata o (some xp) fs path ts =
        ((modify_file_dates o (setMeta fs path ts) path ts).1,
         (modify_file_dates o (setMeta fs path ts) path ts).2.map
           (fun e => "Error: " ++ e))) := by
  constructor
  · intro stderr h
    simp [modify_metadata, h]
  · intro h
    simp only [modify_metadata, h]
    cases hr : (modify_file_dates o (setMeta fs path ts) path ts).2 <;>
      simp [hr]

/-- C10: every list-mutating operation (dialog add, drag-and-drop add,
removing the selected rows, clearing) preserves the one-to-one positional
correspondence between the internal path list and the displayed list: both
have the same length, and the text at row `r` of the display is the basename
of the path at index `r`. -/
theorem gui_lists_correspond (o : Oracle) (op : ListOp) (st : GuiState)
    (h : listsMatch st) :
    (applyOp o op st).display.length = (applyOp o op st).files.length ∧
    ∀ r (hr : r < (applyOp o op st).display.length)
      (hr' : r < (applyOp o op st).files.length),
      ((applyOp o op st).display.get ⟨r, hr⟩).2 =
        basename ((applyOp o op st).files.get ⟨r, hr'⟩) := by
  have hm : listsMatch (applyOp o op st) := listsMatch_applyOp o op st h
  unfold listsMatch at hm
  constructor
  · have := congrArg List.length hm
    simpa using this
  · intro r hr hr'
    have h2 : ((applyOp o op st).display.map Prod.snd)[r]? =
        ((applyOp o op st).files.map basename)[r]? := by rw [hm]
    rw [List.getElem?_map, List.getElem?_map,
      List.getElem?_eq_getElem hr, List.getElem?_eq_getElem hr'] at h2
    simpa using h2

/-! ## Witnesses -/

theorem seq_rank_timestamps_witness :
    sampleCfgSeq.sequential = true ∧
    sampleSt.files ≠ [] ∧
    sampleOracle.strptime (sampleCfgSeq.dateText ++ " " ++ sampleCfgSeq.timeText)
      = Except.ok 1704067200 ∧
    sampleOracle.intParse sampleCfgSeq.intervalText = some 60 ∧
    (List.Sorted fileLe (sortFiles sampleSt.files) ∧
     (sortFiles sampleSt.files).Perm sampleSt.files ∧
     ∀ k (hk : k < (sortFiles sampleSt.files).length),
       (process_files sampleOracle sampleCfgSeq sampleSt sampleFS).trace[k]? =
         some ((sortFiles sampleSt.files).get ⟨k, hk⟩,
           1704067200 + (k : Int) * 60)) :=
  ⟨rfl, by decide, rfl, rfl,
   seq_rank_timestamps sampleOracle sampleCfgSeq sampleSt sampleFS
     1704067200 60 rfl (by decide) rfl rfl⟩

theorem invalid_datetime_aborts_witness :
    sampleSt.files ≠ [] ∧
    sampleOracle.strptime (sampleCfgBadDate.dateText ++ " " ++ sampleCfgBadDate.timeText)
      = Except.error "bad date" ∧
    process_files sampleOracle sampleCfgBadDate sampleSt sampleFS =
      { gui := sampleSt, fs := sampleFS,
        dialogs := [Dialog.critical "Error"
          ("Invalid date/time format: " ++ "bad date")],
        total := 0, processed := 0, errors := [], trace := [] } :=
  ⟨by decide, rfl,
   invalid_datetime_aborts sampleOracle sampleCfgBadDate sampleSt sampleFS
     "bad date" (by decide) rfl⟩

theorem per_file_failures_collected_witness :
    sampleStBad.files ≠ [] ∧
    sampleOracle.strptime (sampleCfgNonseq.dateText ++ " " ++ sampleCfgNonseq.timeText)
      = Except.ok 1704067200 ∧
    ((process_files sampleOracle sampleCfgNonseq sampleStBad sampleFS).trace.map Prod.fst =
      (if sampleCfgNonseq.sequential then sortFiles sampleStBad.files
       else sampleStBad.files) ∧
     (process_files sampleOracle sampleCfgNonseq sampleStBad sampleFS).errors =
      (if sampleCfgNonseq.sequential then sortFiles sampleStBad.files
       else sampleStBad.files).filterMap
        (fun f => (fileErr sampleOracle sampleCfgNonseq f).map
          (fun e => "Error processing " ++ basename f ++ ": " ++ e)) ∧
     ((process_files sampleOracle sampleCfgNonseq sampleStBad sampleFS).errors ≠ [] →
      (process_files sampleOracle sampleCfgNonseq sampleStBad sampleFS).dialogs.getLast? =
        some (Dialog.warning "Partial Success"
          ("Processed "
            ++ toString (process_files sampleOracle sampleCfgNonseq sampleStBad sampleFS).processed
            ++ " out of "
            ++ toString (process_files sampleOracle sampleCfgNonseq sampleStBad sampleFS).total
            ++ " files.\n\nErrors:\n"
            ++ joinLines (process_files sampleOracle sampleCfgNonseq sampleStBad sampleFS).errors)))) :=
  ⟨by decide, rfl,
   per_file_failures_collected sampleOracle sampleCfgNonseq sampleStBad sampleFS
     1704067200 (by decide) rfl⟩

theorem nonseq_all_base_witness :
    sampleCfgNonseq.sequential = false ∧
    sampleSt.files ≠ [] ∧
    sampleOracle.strptime (sampleCfgNonseq.dateText ++ " " ++ sampleCfgNonseq.timeText)
      = Except.ok 1704067200 ∧
    (process_files sampleOracle sampleCfgNonseq sampleSt sampleFS).trace =
      sampleSt.files.map (fun f => (f, (1704067200 : Int))) :=
  ⟨rfl, by decide, rfl,
   nonseq_all_base sampleOracle sampleCfgNonseq sampleSt sampleFS 1704067200
     rfl (by decide) rfl⟩

theorem run_clears_list_witness :
    sampleSt.files ≠ [] ∧
    sampleOracle.strptime (sampleCfgNonseq.dateText ++ " " ++ sampleCfgNonseq.timeText)
      = Except.ok 1704067200 ∧
    ((process_files sampleOracle sampleCfgNonseq sampleSt sampleFS).gui.files = [] ∧
     (process_files sampleOracle sampleCfgNonseq sampleSt sampleFS).gui.display = []) :=
  ⟨by decide, rfl,
   run_clears_list sampleOracle sampleCfgNonseq sampleSt sampleFS 1704067200
     (by decide) rfl⟩

theorem add_is_dedup_witness :
    sampleSt.files.Nodup ∧
    (("a.jpg" ∈ sampleSt.files → addFile sampleSt "a.jpg" = sampleSt) ∧
     addFile (addFile sampleSt "a.jpg") "a.jpg" = addFile sampleSt "a.jpg" ∧
     (addFile sampleSt "a.jpg").files.Nodup ∧
     select_files sampleSt ["a.jpg", "a.jpg"] = select_files sampleSt ["a.jpg"] ∧
     ("a.jpg" ∈ sampleSt.files → dropAdd sampleOracle sampleSt "a.jpg" = sampleSt) ∧
     dropAdd sampleOracle (dropAdd sampleOracle sampleSt "a.jpg") "a.jpg" =
       dropAdd sampleOracle sampleSt "a.jpg" ∧
     (dropAdd sampleOracle sampleSt "a.jpg").files.Nodup) :=
  ⟨by decide, add_is_dedup sampleOracle sampleSt "a.jpg" (by decide)⟩

theorem invalid_interval_defaults_with_warning_witness :
    sampleCfgSeqBadIv.sequential = true ∧
    sampleSt.files ≠ [] ∧
    sampleOracle.strptime (sampleCfgSeqBadIv.dateText ++ " " ++ sampleCfgSeqBadIv.timeText)
      = Except.ok 1704067200 ∧
    sampleOracle.intParse sampleCfgSeqBadIv.intervalText = none ∧
    ((process_files sampleOracle sampleCfgSeqBadIv sampleSt sampleFS).dialogs.head? =
      some (Dialog.warning "Warning" "Invalid interval value. Using 60 seconds.") ∧
     (process_files sampleOracle sampleCfgSeqBadIv sampleSt sampleFS).trace =
      assignedTimes true 1704067200 60 (sortFiles sampleSt.files) 0 ∧
     (process_files sampleOracle sampleCfgSeqBadIv sampleSt sampleFS).total =
      (sortFiles sampleSt.files).length) :=
  ⟨rfl, by decide, rfl, rfl,
   invalid_interval_defaults_with_warning sampleOracle sampleCfgSeqBadIv
     sampleSt sampleFS 1704067200 rfl (by decide) rfl rfl⟩

theorem exiftool_discovery_witness :
    find_exiftool sampleProbe "/app" false = some "/usr/bin/exiftool" ∧
    (∃ i, ∃ (hi : i < (possible_paths "/app" false).length),
      (possible_paths "/app" false).get ⟨i, hi⟩ = "/usr/bin/exiftool" ∧
      sampleProbe "/usr/bin/exiftool" = some 0 ∧
      ∀ j (hj : j < i),
        sampleProbe ((possible_paths "/app" false).get ⟨j, by omega⟩) ≠ some 0) ∧
    modify_metadata sampleOracle none sampleFS "a.jpg" 7 =
      (sampleFS, some "ExifTool not found. Please install ExifTool first.") :=
  ⟨by decide,
   (exiftool_discovery sampleProbe "/app" false sampleOracle sampleFS
     "a.jpg" 7).1 "/usr/bin/exiftool" (by decide),
   (exiftool_discovery sampleProbe "/app" false sampleOracle sampleFS
     "a.jpg" 7).2.2.2⟩

theorem full_mode_tool_failure_witness :
    sampleOracle.exiftoolRun "bad.jpg" = Except.error "tool stderr" ∧
    modify_metadata sampleOracle (some "/usr/bin/exiftool") sampleFS "bad.jpg" 9 =
      (sampleFS, some ("ExifTool error: " ++ "tool stderr")) :=
  ⟨rfl,
   (full_mode_tool_failure sampleOracle sampleFS "bad.jpg" "/usr/bin/exiftool"
     9).1 "tool stderr" rfl⟩

theorem gui_lists_correspond_witness :
    listsMatch sampleSt ∧
    ((applyOp sampleOracle (ListOp.removeSel [0]) sampleSt).display.length =
      (applyOp sampleOracle (ListOp.removeSel [0]) sampleSt).files.length ∧
     ∀ r (hr : r < (applyOp sampleOracle (ListOp.removeSel [0]) sampleSt).display.length)
       (hr' : r < (applyOp sampleOracle (ListOp.removeSel [0]) sampleSt).files.length),
       ((applyOp sampleOracle (ListOp.removeSel [0]) sampleSt).display.get ⟨r, hr⟩).2 =
         basename ((applyOp sampleOracle (ListOp.removeSel [0]) sampleSt).files.get ⟨r, hr'⟩)) :=
  ⟨by unfold listsMatch; decide,
   gui_lists_correspond sampleOracle (ListOp.removeSel [0]) sampleSt
     (by unfold listsMatch; decide)⟩
